import Mathlib

/-! Verification of the data-freshness and fair-use control layer of the
ipmapaws repository: the per-client fixed-window rate limiter
(src/lib/rate-limit.ts), the tiered blob/memory snapshot cache
(src/lib/cache.ts, blob variant), and the background synchronizer
(backgroundSync). All wall-clock instants are JavaScript epoch
milliseconds, modelled as Int; JavaScript string-truthiness is modelled
explicitly where the source relies on it. External effects (the durable
blob tier, the upstream HTTP fetch) are modelled as explicit environment
parameters so every function is total and executable. -/

/-! ## Rate limiter: data model (src/lib/rate-limit.ts) -/

/-- One per-client window record (`RequestRecord` in rate-limit.ts). -/
structure RequestRecord where
  count : Int
  resetTime : Int
deriving DecidableEq, Repr

/-- The in-memory rate-limit store (`store : Map<string, RequestRecord>`),
modelled as a lookup function; `Map.set` is pointwise override. -/
abbrev RLStore : Type := String → Option RequestRecord

/-- `store.set(clientId, record)`. -/
def storeSet (s : RLStore) (k : String) (r : RequestRecord) : RLStore :=
  fun k' => if k' = k then some r else s k'

/-- `RateLimitOptions` of rate-limit.ts. The optional fields carry the
defaults applied by the destructuring in `createRateLimit`. The purely
presentational `message` body text is not modelled. -/
structure RateLimitOptions where
  windowMs : Int
  maxRequests : Int
  skipSuccessfulRequests : Bool := false
  skipFailedRequests : Bool := false
  bypassInternal : Bool := true
deriving DecidableEq, Repr

/-- Outcome of the wrapped route handler `handler()`: a response with a
status code, or a rejected promise (which the middleware converts to a
synthetic 500 response on the non-exempt path). -/
inductive HandlerOutcome where
  | ok (status : Int)
  | thrown
deriving DecidableEq, Repr

/-- The observable shape of the middleware's response on the non-exempt
path: whether the 429 rate-limit rejection branch was taken, the response
status, and the `retryAfter` value of a rejection (seconds). -/
structure MWResponse where
  rateLimited : Bool
  status : Int
  retryAfter : Option Int
deriving DecidableEq, Repr

/-- Result of one request through `rateLimitMiddleware`: on the exempt
branch the handler's outcome (response or rejection) is returned verbatim
(`return handler()`); otherwise the counting path produces a response. -/
inductive MWOutcome where
  | passedThrough (h : HandlerOutcome)
  | handled (r : MWResponse)
deriving DecidableEq, Repr

/-! ## Rate limiter: internal-request heuristic and client identity -/

/-- JavaScript string truthiness of a nullable header value: `null` and
the empty string are falsy. -/
def jsTruthy : Option String → Bool
  | none => false
  | some s => !s.isEmpty

/-- JavaScript `String.prototype.includes`, on exploded strings. -/
def listIncludes (sub : List Char) : List Char → Bool
  | [] => sub.isEmpty
  | c :: rest => sub.isPrefixOf (c :: rest) || listIncludes sub rest

/-- `s.includes(sub)`. -/
def strIncludes (s sub : String) : Bool :=
  listIncludes sub.toList s.toList

/-- The `origin` and `hostname` of a successfully parsed URL. -/
structure ParsedUrl where
  origin : String
  hostname : String
deriving DecidableEq, Repr

/-- The header and URL data of an incoming request that rate-limit.ts
reads. `refererParsed` is the result of `new URL(referer)` (`none` when
the constructor throws); `requestOrigin` is `new URL(request.url).origin`,
always available for a served request. -/
structure Request where
  xInternalRequest : Option String
  referer : Option String
  refererParsed : Option ParsedUrl
  requestOrigin : String
  userAgent : Option String
  xForwardedFor : Option String
  xRealIp : Option String
  cfConnectingIp : Option String
deriving DecidableEq, Repr

/-- The allow-listed hostnames of `isInternalRequest`. `baseUrlHost` is
`process.env.NEXT_PUBLIC_BASE_URL` with its `http(s)://` scheme stripped;
a missing or empty value contributes nothing (JS truthiness of the
spread). -/
def internalDomains (baseUrlHost : Option String) : List String :=
  ["localhost", "127.0.0.1", "ipmapaws.vercel.app"] ++
    (match baseUrlHost with
     | some b => if b.isEmpty then [] else [b]
     | none => [])

/-- The user-agent checks that run after the referer block of
`isInternalRequest` (lines 72-81): known internal agents, then the
permissive no-referer default. -/
def isInternalAfterReferer (req : Request) : Bool :=
  let ua := req.userAgent.getD ""
  if strIncludes ua "Next.js" || strIncludes ua "node-fetch" then true
  else if !jsTruthy req.referer && !strIncludes ua "curl" && !strIncludes ua "Postman" then
    true
  else false

/-- `isInternalRequest` of rate-limit.ts: the internal bypass header, the
same-origin / allow-listed referer checks (skipped when the referer is
absent, empty, or unparseable), then the user-agent checks. -/
def isInternalRequest (baseUrlHost : Option String) (req : Request) : Bool :=
  if req.xInternalRequest = some "true" then true
  else if jsTruthy req.referer then
    match req.refererParsed with
    | some u =>
      if u.origin = req.requestOrigin then true
      else if (internalDomains baseUrlHost).any (fun d => strIncludes u.hostname d) then true
      else isInternalAfterReferer req
    | none => isInternalAfterReferer req
  else isInternalAfterReferer req

/-- `getClientId` of rate-limit.ts: forwarded-for (first entry, trimmed),
then real-ip, then the CDN client-ip header, else the shared sentinel. -/
def getClientId (req : Request) : String :=
  if jsTruthy req.xForwardedFor then
    ((((req.xForwardedFor.getD "").splitOn ",").headD "").trim)
  else if jsTruthy req.xRealIp then req.xRealIp.getD ""
  else if jsTruthy req.cfConnectingIp then req.cfConnectingIp.getD ""
  else "unknown"

/-! ## Rate limiter: the middleware -/

/-- `Math.ceil(ms / 1000)` on integers, as the code computes
`Retry-After` seconds (floor division shifted by 999 equals the ceiling
for the positive divisor 1000). -/
def jsCeilSeconds (ms : Int) : Int :=
  Int.ediv (ms + 999) 1000

/-- Lines 111-120: look up the client's record; absent records and records
strictly past their `resetTime` are replaced by a fresh one
(`count = 0`, `resetTime = now + windowMs`). -/
def refreshRecord (found : Option RequestRecord) (now windowMs : Int) : RequestRecord :=
  match found with
  | some r => if now > r.resetTime then { count := 0, resetTime := now + windowMs } else r
  | none => { count := 0, resetTime := now + windowMs }

/-- Lines 156-173: whether the request still counts after the handler ran.
`shouldCount` starts true; a successful response (< 400) clears it under
`skipSuccessfulRequests`, a rejected handler clears it under
`skipFailedRequests`. -/
def shouldCountOf (o : RateLimitOptions) (h : HandlerOutcome) : Bool :=
  match h with
  | .ok s => !(o.skipSuccessfulRequests && decide (s < 400))
  | .thrown => !o.skipFailedRequests

/-- The status of the response the middleware returns on the non-exempt
path: the handler's own status, or the synthetic 500 of the catch branch. -/
def responseStatus : HandlerOutcome → Int
  | .ok s => s
  | .thrown => 500

/-- Lines 106-187 of rate-limit.ts: the non-exempt counting path of the
middleware returned by `createRateLimit`. The record the map ends up
holding is written back pointwise (in the source the map shares the
mutated record object). Note the pre-handler increment (line 148) runs
only when BOTH skip flags are false, while the post-handler decrement
(lines 176-178) runs whenever either flag is set and the outcome matched;
the decrement has no floor. -/
def handleNonExempt (o : RateLimitOptions) (store : RLStore) (clientId : String)
    (now : Int) (h : HandlerOutcome) : RLStore × MWResponse :=
  let record := refreshRecord (store clientId) now o.windowMs
  if record.count ≥ o.maxRequests then
    (storeSet store clientId record,
      { rateLimited := true, status := 429,
        retryAfter := some (jsCeilSeconds (record.resetTime - now)) })
  else
    let afterInc :=
      if !o.skipSuccessfulRequests && !o.skipFailedRequests then record.count + 1
      else record.count
    let afterDec :=
      if (o.skipSuccessfulRequests || o.skipFailedRequests) && !shouldCountOf o h then
        afterInc - 1
      else afterInc
    (storeSet store clientId { count := afterDec, resetTime := record.resetTime },
      { rateLimited := false, status := responseStatus h, retryAfter := none })

/-- `rateLimitMiddleware`: the exempt bypass (lines 100-104) returns the
handler's outcome verbatim and leaves the store untouched; otherwise the
counting path runs under the client's identity. -/
def rateLimitMiddleware (o : RateLimitOptions) (baseUrlHost : Option String)
    (store : RLStore) (req : Request) (now : Int) (h : HandlerOutcome) :
    RLStore × MWOutcome :=
  if o.bypassInternal && isInternalRequest baseUrlHost req then
    (store, .passedThrough h)
  else
    let step := handleNonExempt o store (getClientId req) now h
    (step.1, .handled step.2)

/-- A sequence of requests of one client through the counting path, each
given by its arrival time and its handler outcome. -/
def runClient (o : RateLimitOptions) (cid : String) :
    RLStore → List (Int × HandlerOutcome) → RLStore × List MWResponse
  | s, [] => (s, [])
  | s, (now, h) :: rest =>
    let step := handleNonExempt o s cid now h
    let tail := runClient o cid step.1 rest
    (tail.1, step.2 :: tail.2)

/-- A sequence of non-exempt requests (client, time, handler outcome)
through the counting path. -/
def runNonExempt (o : RateLimitOptions) :
    RLStore → List (String × Int × HandlerOutcome) → RLStore × List MWResponse
  | s, [] => (s, [])
  | s, (cid, now, h) :: rest =>
    let step := handleNonExempt o s cid now h
    let tail := runNonExempt o step.1 rest
    (tail.1, step.2 :: tail.2)

/-! ## Tiered cache: data model (src/lib/cache.ts, blob variant) -/

/-- The upstream dataset as the cache stores it: version metadata plus the
two prefix arrays (their element payloads are opaque to this layer). -/
structure AWSIPRanges where
  syncToken : String
  createDate : String
  prefixes : List String
  ipv6Prefixes : List String
deriving DecidableEq, Repr

/-- `CacheData` of cache.ts: the snapshot, the instant it was stored, and
the duplicated version metadata. -/
structure CacheData where
  data : AWSIPRanges
  timestamp : Int
  createDate : String
  syncToken : String
deriving DecidableEq, Repr

/-- The two tiers: the durable blob store's content and the process-local
`memoryCache` variable. -/
structure CacheState where
  blob : Option CacheData
  memory : Option CacheData
deriving DecidableEq, Repr

/-- `CACHE_DURATION`: 24 hours in milliseconds. -/
def CACHE_DURATION : Int := 24 * 60 * 60 * 1000

/-- Lines 204-220 of cache.ts: the memory-tier fallback of
`getCachedData`; an expired memory record is cleared. -/
def memoryFallback (now : Int) (s : CacheState) : CacheState × Option AWSIPRanges :=
  match s.memory with
  | some m =>
    if now - m.timestamp > CACHE_DURATION then ({ s with memory := none }, none)
    else (s, some m.data)
  | none => (s, none)

/-- `getCachedData` (blob variant, lines 176-220): consult the blob tier
first (`blobReachable = false` models a failing `head`/`fetch`/parse,
treated as tier absence); an unexpired blob snapshot is returned and
copied into the memory tier; otherwise fall back to the memory tier. -/
def getCachedData (blobReachable : Bool) (now : Int) (s : CacheState) :
    CacheState × Option AWSIPRanges :=
  match (if blobReachable then s.blob else none) with
  | some c =>
    if now - c.timestamp > CACHE_DURATION then memoryFallback now s
    else ({ s with memory := some c }, some c.data)
  | none => memoryFallback now s

/-- `setCachedData` (lines 225-251): build the `CacheData` record at the
write instant, always install it in the memory tier, then attempt the
blob write; a failing blob write (`blobWriteOk = false`) is swallowed and
leaves the blob tier's previous content in place. -/
def setCachedData (blobWriteOk : Bool) (now : Int) (d : AWSIPRanges) (s : CacheState) :
    CacheState :=
  let cd : CacheData :=
    { data := d, timestamp := now, createDate := d.createDate, syncToken := d.syncToken }
  { memory := some cd, blob := if blobWriteOk then some cd else s.blob }

/-- The memory-tier fallback of `getCachedDataWithVersion` (lines
304-317): same age rule, but without clearing an expired record. -/
def withVersionMemory (now : Int) (s : CacheState) : Option CacheData :=
  match s.memory with
  | some m => if now - m.timestamp > CACHE_DURATION then none else some m
  | none => none

/-- `getCachedDataWithVersion` (lines 273-320): blob tier first, then the
memory tier, under the 24-hour age rule; returns the whole record (data
plus version metadata) and mutates nothing. -/
def getCachedDataWithVersion (blobReachable : Bool) (now : Int) (s : CacheState) :
    Option CacheData :=
  match (if blobReachable then s.blob else none) with
  | some c =>
    if now - c.timestamp > CACHE_DURATION then withVersionMemory now s else some c
  | none => withVersionMemory now s

/-! ## Background synchronizer (backgroundSync, blob variant) -/

/-- The upstream JSON document as fetched, before validation: each field
may be missing. JavaScript truthiness makes a present array truthy (even
empty) while a present-but-empty string is falsy. -/
structure RawPayload where
  prefixes : Option (List String)
  ipv6Prefixes : Option (List String)
  syncToken : Option String
  createDate : Option String
deriving DecidableEq, Repr

/-- Line 35: `!data.prefixes || !data.ipv6_prefixes || !data.syncToken ||
!data.createDate` fails validation. -/
def validPayload (raw : RawPayload) : Bool :=
  raw.prefixes.isSome && raw.ipv6Prefixes.isSome &&
    jsTruthy raw.syncToken && jsTruthy raw.createDate

/-- The dataset a valid raw payload denotes. -/
def payloadData (raw : RawPayload) : AWSIPRanges :=
  { syncToken := raw.syncToken.getD "", createDate := raw.createDate.getD "",
    prefixes := raw.prefixes.getD [], ipv6Prefixes := raw.ipv6Prefixes.getD [] }

/-- How one attempt to fetch the upstream document went: the promise
rejected (network error, or the 30-second abort timeout), the response was
non-OK, or a JSON body was obtained. -/
inductive FetchResult where
  | netError (message : String)
  | httpError (status : Int) (statusText : String)
  | payload (raw : RawPayload)
deriving DecidableEq, Repr

/-- `fetchAWSIPRanges` (lines 14-47): throws on rejection, on non-OK
status, and on a payload failing the structure validation; returns the
dataset otherwise. -/
def fetchAWSIPRanges : FetchResult → Except String AWSIPRanges
  | .netError m => .error m
  | .httpError s st =>
    .error ("AWS API responded with status: " ++ toString s ++ " " ++ st)
  | .payload raw =>
    if validPayload raw then .ok (payloadData raw)
    else .error "Invalid AWS IP ranges response structure"

/-- The record `shouldUpdate` resolves to. -/
structure UpdateCheck where
  needsUpdate : Bool
  reason : String
  remoteData : Option AWSIPRanges
deriving DecidableEq, Repr

/-- `FORCE_REFRESH_INTERVAL`: 24 hours in milliseconds. -/
def FORCE_REFRESH_INTERVAL : Int := 24 * 60 * 60 * 1000

/-- `shouldUpdate` (lines 52-123): read the cached record; with no cache,
fetch and report an update (a fetch failure is caught and reported as
`needsUpdate = false`); with a cache, fetch to compare (failure likewise
caught), report an update on any `createDate`/`syncToken` difference,
else force-refresh when the cache age strictly exceeds
`FORCE_REFRESH_INTERVAL`, else report up to date. -/
def shouldUpdate (blobReachable : Bool) (fr : FetchResult) (now : Int) (s : CacheState) :
    UpdateCheck :=
  match getCachedDataWithVersion blobReachable now s with
  | none =>
    match fetchAWSIPRanges fr with
    | .ok remote =>
      { needsUpdate := true, reason := "No cached data found", remoteData := some remote }
    | .error e =>
      { needsUpdate := false, reason := "Failed to fetch initial data: " ++ e,
        remoteData := none }
  | some cached =>
    match fetchAWSIPRanges fr with
    | .error e =>
      { needsUpdate := false, reason := "Failed to check for updates: " ++ e,
        remoteData := none }
    | .ok remote =>
      let createDateChanged : Bool := decide (remote.createDate ≠ cached.createDate)
      let syncTokenChanged : Bool := decide (remote.syncToken ≠ cached.syncToken)
      if createDateChanged || syncTokenChanged then
        { needsUpdate := true,
          reason := "AWS data updated (" ++
            (if createDateChanged then "createDate" else "syncToken") ++ " changed)",
          remoteData := some remote }
      else if now - cached.timestamp > FORCE_REFRESH_INTERVAL then
        { needsUpdate := true, reason := "Force refresh due to cache age",
          remoteData := some remote }
      else
        { needsUpdate := false, reason := "Data is up to date", remoteData := none }

/-- The synchronizer's process state: the `isRunning` single-flight guard
and the cache the sync writes through. -/
structure SyncState where
  isRunning : Bool
  cache : CacheState
deriving DecidableEq, Repr

/-- The environment one sync attempt observes: blob reachability during
the check, the upstream fetch's outcome, the wall clock, and whether the
blob write succeeds. -/
structure SyncEnv where
  blobReachable : Bool
  fetch : FetchResult
  now : Int
  blobWriteOk : Bool
deriving DecidableEq, Repr

/-- Lines 129-134 of `performSync`: the guard check and the setting of
`isRunning` — synchronous, with no await point between them. Returns
whether the invocation proceeds into the body. -/
def performSyncEnter (st : SyncState) : SyncState × Bool :=
  if st.isRunning then (st, false) else ({ st with isRunning := true }, true)

/-- Lines 137-153: run `shouldUpdate`; on `needsUpdate` with remote data
available, write the cache (the write's own failure is swallowed inside
`setCachedData`). Returns whether a fetch-and-write cycle was performed. -/
def performSyncBody (env : SyncEnv) (c : CacheState) : CacheState × Bool :=
  let u := shouldUpdate env.blobReachable env.fetch env.now c
  match u.remoteData with
  | some remote =>
    if u.needsUpdate then (setCachedData env.blobWriteOk env.now remote c, true)
    else (c, false)
  | none => (c, false)

/-- The `finally` block (line 161): clear the run guard. -/
def performSyncExit (st : SyncState) : SyncState :=
  { st with isRunning := false }

/-- `performSync` (lines 128-163) run to completion without interleaving:
a guarded invocation is a no-op; otherwise the body runs between the
guard's set and its clearing. Every await inside the body sits under a
try/catch, so the function is total. The Bool reports whether a
fetch-and-write cycle was performed. -/
def performSync (env : SyncEnv) (st : SyncState) : SyncState × Bool :=
  let e := performSyncEnter st
  if e.2 then
    let b := performSyncBody env e.1.cache
    (performSyncExit { e.1 with cache := b.1 }, b.2)
  else (e.1, false)

/-- The record `triggerSync` resolves to. -/
structure TriggerResult where
  success : Bool
  message : String
deriving DecidableEq, Repr

/-- `triggerSync` (lines 224-234): await `performSync` and report success;
the catch branch (`success = false`) is reachable only if `performSync`
rejects, and `performSync` never does — `shouldUpdate` catches every fetch
error and `setCachedData` swallows blob-write failure. -/
def triggerSync (env : SyncEnv) (st : SyncState) : TriggerResult × SyncState :=
  let r := performSync env st
  ({ success := true, message := "Sync completed successfully" }, r.1)

/-- A store all of whose records hold a non-positive count (the state a
skip-flag route's store is confined to: it starts empty and no request
path ever increments). -/
def nonPosCounts (s : RLStore) : Prop :=
  ∀ cid r, s cid = some r → r.count ≤ 0

/-! ## Helper lemmas: the rate limiter's step behaviour -/

lemma storeSet_self (s : RLStore) (k : String) (r : RequestRecord) :
    storeSet s k r k = some r := by
  simp [storeSet]

lemma storeSet_other (s : RLStore) (k k' : String) (r : RequestRecord) (h : k' ≠ k) :
    storeSet s k r k' = s k' := by
  simp [storeSet, h]

/-- With both skip flags off, a request inside the window with spare
budget increments the client's count and is not rate limited. -/
lemma handleNonExempt_count_step (o : RateLimitOptions) (s : RLStore) (cid : String)
    (now : Int) (h : HandlerOutcome) (c R : Int)
    (hs1 : o.skipSuccessfulRequests = false) (hs2 : o.skipFailedRequests = false)
    (hrec : s cid = some { count := c, resetTime := R })
    (htime : now ≤ R) (hlt : c < o.maxRequests) :
    handleNonExempt o s cid now h =
      (storeSet s cid { count := c + 1, resetTime := R },
       { rateLimited := false, status := responseStatus h, retryAfter := none }) := by
  simp only [handleNonExempt, refreshRecord, hrec, hs1, hs2]
  rw [if_neg (by omega : ¬ now > R)]
  rw [if_neg (by simpa using hlt :
    ¬ ({ count := c, resetTime := R } : RequestRecord).count ≥ o.maxRequests)]
  simp

/-- A request inside the window with exhausted budget is rejected with
the ceiling of the remaining window in seconds, and the count is kept. -/
lemma handleNonExempt_deny_step (o : RateLimitOptions) (s : RLStore) (cid : String)
    (now : Int) (h : HandlerOutcome) (c R : Int)
    (hrec : s cid = some { count := c, resetTime := R })
    (htime : now ≤ R) (hge : c ≥ o.maxRequests) :
    handleNonExempt o s cid now h =
      (storeSet s cid { count := c, resetTime := R },
       { rateLimited := true, status := 429,
         retryAfter := some (jsCeilSeconds (R - now)) }) := by
  simp only [handleNonExempt, refreshRecord, hrec]
  rw [if_neg (by omega : ¬ now > R)]
  rw [if_pos (by simpa using hge :
    ({ count := c, resetTime := R } : RequestRecord).count ≥ o.maxRequests)]

/-- An absent record, or one strictly past its reset instant, refreshes
to a zero-count record. -/
lemma refreshRecord_fresh (found : Option RequestRecord) (now W : Int)
    (hfresh : found = none ∨ ∃ r, found = some r ∧ now > r.resetTime) :
    refreshRecord found now W = { count := 0, resetTime := now + W } := by
  rcases hfresh with hnone | ⟨r, hr, hexp⟩
  · rw [hnone]; rfl
  · rw [hr]; simp only [refreshRecord]; rw [if_pos hexp]

/-- With both skip flags off, the first request of a fresh window is
admitted and opens a count-1 record expiring a window later. -/
lemma handleNonExempt_fresh_step (o : RateLimitOptions) (s : RLStore) (cid : String)
    (now : Int) (h : HandlerOutcome)
    (hs1 : o.skipSuccessfulRequests = false) (hs2 : o.skipFailedRequests = false)
    (hfresh : refreshRecord (s cid) now o.windowMs
      = { count := 0, resetTime := now + o.windowMs })
    (hmax : 0 < o.maxRequests) :
    handleNonExempt o s cid now h =
      (storeSet s cid { count := 1, resetTime := now + o.windowMs },
       { rateLimited := false, status := responseStatus h, retryAfter := none }) := by
  simp only [handleNonExempt, hfresh]
  rw [if_neg (by simpa using hmax :
    ¬ ({ count := 0, resetTime := now + o.windowMs } : RequestRecord).count ≥ o.maxRequests)]
  simp [hs1, hs2]

/-- Running a batch of same-window requests against an existing record
with enough budget admits all of them and adds the batch's length to the
count. -/
lemma runClient_window_aux (o : RateLimitOptions) (cid : String)
    (hs1 : o.skipSuccessfulRequests = false) (hs2 : o.skipFailedRequests = false) :
    ∀ (ts : List (Int × HandlerOutcome)) (s : RLStore) (c R : Int),
      s cid = some { count := c, resetTime := R } →
      (∀ p ∈ ts, p.1 ≤ R) →
      c + (ts.length : Int) ≤ o.maxRequests →
      (∀ resp ∈ (runClient o cid s ts).2, resp.rateLimited = false) ∧
      (runClient o cid s ts).1 cid = some { count := c + (ts.length : Int), resetTime := R }
  | [], s, c, R, hrec, _, _ => by
    simpa [runClient] using hrec
  | (t, h) :: rest, s, c, R, hrec, htimes, hcount => by
    have hlt : c < o.maxRequests := by
      have : (0 : Int) ≤ (rest.length : Int) := Int.natCast_nonneg _
      simp only [List.length_cons] at hcount
      push_cast at hcount
      omega
    have hstep := handleNonExempt_count_step o s cid t h c R hs1 hs2 hrec
      (htimes (t, h) (List.mem_cons_self _ _)) hlt
    have hrec' : (storeSet s cid { count := c + 1, resetTime := R }) cid
        = some { count := c + 1, resetTime := R } := storeSet_self _ _ _
    have ih := runClient_window_aux o cid hs1 hs2 rest
      (storeSet s cid { count := c + 1, resetTime := R }) (c + 1) R hrec'
      (fun p hp => htimes p (List.mem_cons_of_mem _ hp))
      (by simp only [List.length_cons] at hcount; push_cast at hcount ⊢; omega)
    constructor
    · intro resp hresp
      simp only [runClient, hstep] at hresp
      rcases List.mem_cons.mp hresp with hfirst | htail
      · rw [hfirst]
      · exact ih.1 resp htail
    · simp only [runClient, hstep]
      have := ih.2
      simp only [List.length_cons]
      convert this using 3
      push_cast
      ring

/-- On a route with a skip flag set, one non-exempt request from a
non-positive store is never rate limited and leaves the store
non-positive: the pre-handler increment is disabled and the post-handler
decrement only lowers counts. -/
lemma handleNonExempt_skip_step (o : RateLimitOptions) (s : RLStore) (cid : String)
    (now : Int) (h : HandlerOutcome)
    (hskip : o.skipSuccessfulRequests = true ∨ o.skipFailedRequests = true)
    (hmax : 0 < o.maxRequests) (hs : nonPosCounts s) :
    (handleNonExempt o s cid now h).2.rateLimited = false ∧
    nonPosCounts (handleNonExempt o s cid now h).1 := by
  have hcnt : (refreshRecord (s cid) now o.windowMs).count ≤ 0 := by
    cases hrec : s cid with
    | none => simp [refreshRecord]
    | some r =>
      have hr := hs cid r hrec
      by_cases hexp : now > r.resetTime
      · simp [refreshRecord, hexp]
      · simp [refreshRecord, hexp, hr]
  simp only [handleNonExempt]
  rw [if_neg (by omega : ¬ (refreshRecord (s cid) now o.windowMs).count ≥ o.maxRequests)]
  constructor
  · rfl
  · intro cid' r' h'
    dsimp only at h'
    by_cases hc : cid' = cid
    · subst hc
      rw [storeSet_self] at h'
      injection h' with hv
      rw [← hv]
      rcases hskip with h1 | h1 <;> simp [h1] <;> split <;> omega
    · rw [storeSet_other _ _ _ _ hc] at h'
      exact hs cid' r' h'

/-! ## Claim theorems: rate limiter -/

/-- Claim C1, code-bug evidence at the failing input: on a route
configured with `skipSuccessfulRequests = true`, a single successful
(status 200) request from a fresh non-exempt client leaves the client's
window counter at -1. The pre-handler increment is guarded by
`!skipSuccessfulRequests && !skipFailedRequests` and therefore skipped,
while the post-handler decrement still fires, so `count` drops below
zero — against the documented intent that skipping only un-counts a
previously counted request and never drives `count` negative. -/
theorem count_goes_negative_on_skip_route :
    ((handleNonExempt
        { windowMs := 60000, maxRequests := 5, skipSuccessfulRequests := true }
        (fun _ => none) "1.2.3.4" 0 (HandlerOutcome.ok 200)).1 "1.2.3.4")
      = some { count := -1, resetTime := 60000 } := by
  decide

/-- Claim C3 counterexample: with `max = 1` and a window of 60000 ms
opened at t = 0 (so `windowResetAt = 60000`), a request arriving at
exactly `now = windowResetAt` is still DENIED: the refresh condition is
the strict `now > resetTime`, so at the boundary the exhausted record is
reused, contradicting the claim that the client is allowed again at any
`now >= windowResetAt`. -/
theorem admit_at_reset_boundary_denied :
    ((handleNonExempt { windowMs := 60000, maxRequests := 1 }
        ((handleNonExempt { windowMs := 60000, maxRequests := 1 }
          (fun _ => none) "1.2.3.4" 0 (HandlerOutcome.ok 200)).1)
        "1.2.3.4" 60000 (HandlerOutcome.ok 200)).2)
      = { rateLimited := true, status := 429, retryAfter := some 0 } := by
  decide

/-- Claim C3 (amended): for a non-exempt client on a default-flags route,
starting from no record, the first `max` requests of the window (all at
times at most `windowResetAt = t0 + windowMs`) are all admitted and leave
`count = max`; a further request at `tD ≤ windowResetAt` is denied with
`retryAfter = ceil((windowResetAt - tD) / 1000)` seconds; and a request
at any `tN` STRICTLY after `windowResetAt` (amendment: the code resets
only for `now > windowResetAt`, not `now ≥`) is admitted again with a
fresh count-1 record expiring at `tN + windowMs`. -/
theorem admit_fixed_window (o : RateLimitOptions) (cid : String)
    (hs1 : o.skipSuccessfulRequests = false) (hs2 : o.skipFailedRequests = false)
    (s0 : RLStore) (h0 : s0 cid = none)
    (t0 : Int) (hOut0 : HandlerOutcome) (rest : List (Int × HandlerOutcome))
    (hrest : ∀ p ∈ rest, p.1 ≤ t0 + o.windowMs)
    (hlen : 1 + (rest.length : Int) = o.maxRequests)
    (tD : Int) (hD : tD ≤ t0 + o.windowMs) (hOutD : HandlerOutcome)
    (tN : Int) (hN : tN > t0 + o.windowMs) (hOutN : HandlerOutcome) :
    (∀ resp ∈ (runClient o cid s0 ((t0, hOut0) :: rest)).2, resp.rateLimited = false) ∧
    (runClient o cid s0 ((t0, hOut0) :: rest)).1 cid
      = some { count := o.maxRequests, resetTime := t0 + o.windowMs } ∧
    (handleNonExempt o (runClient o cid s0 ((t0, hOut0) :: rest)).1 cid tD hOutD).2
      = { rateLimited := true, status := 429,
          retryAfter := some (jsCeilSeconds (t0 + o.windowMs - tD)) } ∧
    (handleNonExempt o (runClient o cid s0 ((t0, hOut0) :: rest)).1 cid tN hOutN).2
      = { rateLimited := false, status := responseStatus hOutN, retryAfter := none } ∧
    (handleNonExempt o (runClient o cid s0 ((t0, hOut0) :: rest)).1 cid tN hOutN).1 cid
      = some { count := 1, resetTime := tN + o.windowMs } := by
  have hmax : 0 < o.maxRequests := by
    have : (0 : Int) ≤ (rest.length : Int) := Int.natCast_nonneg _
    omega
  have hstep0 := handleNonExempt_fresh_step o s0 cid t0 hOut0 hs1 hs2
    (refreshRecord_fresh _ _ _ (Or.inl h0)) hmax
  have hrec1 : (storeSet s0 cid { count := 1, resetTime := t0 + o.windowMs }) cid
      = some { count := 1, resetTime := t0 + o.windowMs } := storeSet_self _ _ _
  have haux := runClient_window_aux o cid hs1 hs2 rest
    (storeSet s0 cid { count := 1, resetTime := t0 + o.windowMs }) 1 (t0 + o.windowMs)
    hrec1 hrest (by omega)
  have hrunfinal : (runClient o cid s0 ((t0, hOut0) :: rest)).1 cid
      = some { count := o.maxRequests, resetTime := t0 + o.windowMs } := by
    simp only [runClient, hstep0]
    rw [haux.2, hlen]
  refine ⟨?_, hrunfinal, ?_, ?_, ?_⟩
  · intro resp hresp
    simp only [runClient, hstep0] at hresp
    rcases List.mem_cons.mp hresp with hfirst | htail
    · rw [hfirst]
    · exact haux.1 resp htail
  · rw [handleNonExempt_deny_step o _ cid tD hOutD o.maxRequests (t0 + o.windowMs)
      hrunfinal hD (le_refl _)]
  · rw [handleNonExempt_fresh_step o _ cid tN hOutN hs1 hs2
      (refreshRecord_fresh _ _ _ (Or.inr ⟨_, hrunfinal, hN⟩)) hmax]
  · rw [handleNonExempt_fresh_step o _ cid tN hOutN hs1 hs2
      (refreshRecord_fresh _ _ _ (Or.inr ⟨_, hrunfinal, hN⟩)) hmax]
    exact storeSet_self _ _ _

/-- Claim C3 witness: window 60 s, max 3, client "1.2.3.4": requests at
0, 1000 and 2000 ms are all admitted and the count reaches 3; the fourth
request at 2500 ms is denied with Retry-After 58 s; a request at 61000 ms
is admitted with a fresh record. -/
theorem admit_fixed_window_witness :
    (∀ resp ∈ (runClient { windowMs := 60000, maxRequests := 3 } "1.2.3.4" (fun _ => none)
        ((0, HandlerOutcome.ok 200) ::
          [(1000, HandlerOutcome.ok 200), (2000, HandlerOutcome.ok 200)])).2,
      resp.rateLimited = false) ∧
    (runClient { windowMs := 60000, maxRequests := 3 } "1.2.3.4" (fun _ => none)
        ((0, HandlerOutcome.ok 200) ::
          [(1000, HandlerOutcome.ok 200), (2000, HandlerOutcome.ok 200)])).1 "1.2.3.4"
      = some { count := 3, resetTime := 0 + 60000 } ∧
    (handleNonExempt { windowMs := 60000, maxRequests := 3 }
        (runClient { windowMs := 60000, maxRequests := 3 } "1.2.3.4" (fun _ => none)
          ((0, HandlerOutcome.ok 200) ::
            [(1000, HandlerOutcome.ok 200), (2000, HandlerOutcome.ok 200)])).1
        "1.2.3.4" 2500 (HandlerOutcome.ok 200)).2
      = { rateLimited := true, status := 429,
          retryAfter := some (jsCeilSeconds (0 + 60000 - 2500)) } ∧
    (handleNonExempt { windowMs := 60000, maxRequests := 3 }
        (runClient { windowMs := 60000, maxRequests := 3 } "1.2.3.4" (fun _ => none)
          ((0, HandlerOutcome.ok 200) ::
            [(1000, HandlerOutcome.ok 200), (2000, HandlerOutcome.ok 200)])).1
        "1.2.3.4" 61000 (HandlerOutcome.ok 200)).2
      = { rateLimited := false, status := responseStatus (HandlerOutcome.ok 200),
          retryAfter := none } ∧
    (handleNonExempt { windowMs := 60000, maxRequests := 3 }
        (runClient { windowMs := 60000, maxRequests := 3 } "1.2.3.4" (fun _ => none)
          ((0, HandlerOutcome.ok 200) ::
            [(1000, HandlerOutcome.ok 200), (2000, HandlerOutcome.ok 200)])).1
        "1.2.3.4" 61000 (HandlerOutcome.ok 200)).1 "1.2.3.4"
      = some { count := 1, resetTime := 61000 + 60000 } :=
  admit_fixed_window { windowMs := 60000, maxRequests := 3 } "1.2.3.4" rfl rfl
    (fun _ => none) rfl 0 (HandlerOutcome.ok 200)
    [(1000, HandlerOutcome.ok 200), (2000, HandlerOutcome.ok 200)]
    (by decide) (by decide) 2500 (by decide) (HandlerOutcome.ok 200)
    61000 (by decide) (HandlerOutcome.ok 200)

/-- Claim C8: a caller the exemption predicate `isInternalRequest`
classifies as internal (trusted marker header, same-origin or
allow-listed referer, internal-tooling user agent, or no referer
combined with no known external-tool signature), on a route with
`bypassInternal` enabled, is passed straight through to the handler: the
middleware returns the handler's outcome verbatim, never the 429
rejection, and the window-counter store is returned untouched — so such
a caller is never denied regardless of request volume. -/
theorem exempt_requests_bypass_limiter (o : RateLimitOptions) (baseUrlHost : Option String)
    (s : RLStore) (req : Request) (now : Int) (h : HandlerOutcome)
    (hbypass : o.bypassInternal = true)
    (hexempt : isInternalRequest baseUrlHost req = true) :
    rateLimitMiddleware o baseUrlHost s req now h = (s, MWOutcome.passedThrough h) := by
  simp [rateLimitMiddleware, hbypass, hexempt]

/-- Claim C8 witness: a request carrying the `x-internal-request: true`
marker (even with a curl user agent) on the default API limiter
configuration bypasses the counters. -/
theorem exempt_requests_bypass_limiter_witness :
    rateLimitMiddleware { windowMs := 3600000, maxRequests := 50 } none
        (fun _ => none)
        { xInternalRequest := some "true", referer := none, refererParsed := none,
          requestOrigin := "https://ipmapaws.vercel.app", userAgent := some "curl/8.0",
          xForwardedFor := some "1.2.3.4", xRealIp := none, cfConnectingIp := none }
        0 (HandlerOutcome.ok 200)
      = ((fun _ => none), MWOutcome.passedThrough (HandlerOutcome.ok 200)) :=
  exempt_requests_bypass_limiter { windowMs := 3600000, maxRequests := 50 } none
    (fun _ => none)
    { xInternalRequest := some "true", referer := none, refererParsed := none,
      requestOrigin := "https://ipmapaws.vercel.app", userAgent := some "curl/8.0",
      xForwardedFor := some "1.2.3.4", xRealIp := none, cfConnectingIp := none }
    0 (HandlerOutcome.ok 200) rfl (by decide)

/-- Claim C9: on a route configured with `skipSuccessfulRequests = true`
or `skipFailedRequests = true` (and a positive `maxRequests`), the
pre-handler increment never runs for non-exempt requests — its guard
requires BOTH flags false — so starting from a store with no positive
counts, every request of every volume and outcome is admitted (never the
429 branch) and every stored count stays at most 0, never reaching
`maxRequests`. -/
theorem skip_flags_disable_limiting (o : RateLimitOptions)
    (hskip : o.skipSuccessfulRequests = true ∨ o.skipFailedRequests = true)
    (hmax : 0 < o.maxRequests) (reqs : List (String × Int × HandlerOutcome))
    (s : RLStore) (hs : nonPosCounts s) :
    (∀ resp ∈ (runNonExempt o s reqs).2, resp.rateLimited = false) ∧
    nonPosCounts (runNonExempt o s reqs).1 := by
  induction reqs generalizing s with
  | nil =>
    constructor
    · intro resp hresp
      simp [runNonExempt] at hresp
    · simpa [runNonExempt] using hs
  | cons p rest ih =>
    obtain ⟨cid, now, h⟩ := p
    have hstep := handleNonExempt_skip_step o s cid now h hskip hmax hs
    have ihr := ih (handleNonExempt o s cid now h).1 hstep.2
    constructor
    · intro resp hresp
      simp only [runNonExempt] at hresp
      rcases List.mem_cons.mp hresp with h1 | h2
      · rw [h1]; exact hstep.1
      · exact ihr.1 resp h2
    · simp only [runNonExempt]
      exact ihr.2

/-- Claim C9 witness: a skip-successful route with max 2 admits four
mixed-outcome requests from two clients starting from the empty store,
and the final store holds no positive count. -/
theorem skip_flags_disable_limiting_witness :
    (∀ resp ∈ (runNonExempt
        { windowMs := 1000, maxRequests := 2, skipSuccessfulRequests := true }
        (fun _ => none)
        [("a", 0, HandlerOutcome.ok 200), ("a", 1, HandlerOutcome.thrown),
         ("a", 2, HandlerOutcome.ok 200), ("b", 3, HandlerOutcome.ok 404)]).2,
      resp.rateLimited = false) ∧
    nonPosCounts (runNonExempt
        { windowMs := 1000, maxRequests := 2, skipSuccessfulRequests := true }
        (fun _ => none)
        [("a", 0, HandlerOutcome.ok 200), ("a", 1, HandlerOutcome.thrown),
         ("a", 2, HandlerOutcome.ok 200), ("b", 3, HandlerOutcome.ok 404)]).1 :=
  skip_flags_disable_limiting
    { windowMs := 1000, maxRequests := 2, skipSuccessfulRequests := true }
    (Or.inl rfl) (by decide)
    [("a", 0, HandlerOutcome.ok 200), ("a", 1, HandlerOutcome.thrown),
     ("a", 2, HandlerOutcome.ok 200), ("b", 3, HandlerOutcome.ok 404)]
    (fun _ => none) (fun _ _ h => Option.noConfusion h)

/-! ## Claim theorems: tiered cache -/

/-- Claim C2 counterexample: when the durable write fails while the blob
tier still holds an older, unexpired snapshot, `set` followed
immediately by `get` returns the OLDER durable snapshot, not the
just-written one — `getCachedData` consults the blob tier first and only
falls back to the memory tier, so the memory tier does not give
read-your-writes here. -/
theorem set_get_returns_stale_blob :
    (getCachedData true 1000
        (setCachedData false 1000
          { syncToken := "v2", createDate := "d2", prefixes := [], ipv6Prefixes := [] }
          { blob := some { data := { syncToken := "v1", createDate := "d1",
                                     prefixes := [], ipv6Prefixes := [] },
                           timestamp := 0, createDate := "d1", syncToken := "v1" },
            memory := none })).2
      = some { syncToken := "v1", createDate := "d1", prefixes := [], ipv6Prefixes := [] }
    ∧ ({ syncToken := "v1", createDate := "d1", prefixes := [], ipv6Prefixes := [] }
        : AWSIPRanges)
      ≠ { syncToken := "v2", createDate := "d2", prefixes := [], ipv6Prefixes := [] } := by
  decide

/-- Claim C2 (amended): within one process, `set` followed immediately by
`get` returns the just-written snapshot whenever the durable-tier read
does not serve an unexpired pre-write snapshot: when the durable write
succeeded, or the durable tier is unreachable, or it was empty, or its
prior content is expired at the read instant. (The unamended claim fails
exactly when the durable write fails or is in flight while the blob tier
still holds an older unexpired snapshot — then `get` returns that older
snapshot, because the blob tier is consulted first.) -/
theorem set_then_get_memory_tier (s0 : CacheState) (d : AWSIPRanges)
    (writeOk reachable : Bool) (now : Int)
    (hcase : writeOk = true ∨ reachable = false ∨ s0.blob = none ∨
      (∀ c, s0.blob = some c → now - c.timestamp > CACHE_DURATION)) :
    (getCachedData reachable now (setCachedData writeOk now d s0)).2 = some d := by
  cases writeOk with
  | true =>
    cases reachable with
    | true => simp [getCachedData, setCachedData, memoryFallback, sub_self, CACHE_DURATION]
    | false => simp [getCachedData, setCachedData, memoryFallback, sub_self, CACHE_DURATION]
  | false =>
    rcases hcase with h | h | h | h
    · exact absurd h (by simp)
    · rw [h]
      simp [getCachedData, setCachedData, memoryFallback, sub_self, CACHE_DURATION]
    · cases reachable with
      | true => simp [getCachedData, setCachedData, h, memoryFallback, sub_self, CACHE_DURATION]
      | false => simp [getCachedData, setCachedData, memoryFallback, sub_self, CACHE_DURATION]
    · cases reachable with
      | false => simp [getCachedData, setCachedData, memoryFallback, sub_self, CACHE_DURATION]
      | true =>
        cases hb : s0.blob with
        | none => simp [getCachedData, setCachedData, hb, memoryFallback, sub_self, CACHE_DURATION]
        | some c =>
          have hexp : (86400000 : Int) < now - c.timestamp := by
            simpa [CACHE_DURATION] using h c hb
          simp [getCachedData, setCachedData, hb, memoryFallback, sub_self, CACHE_DURATION, hexp]

/-- Claim C2 witness: with an empty blob tier and a failing durable
write, the snapshot written at t = 5 is read back at t = 5 from the
memory tier. -/
theorem set_then_get_memory_tier_witness :
    (getCachedData true 5
        (setCachedData false 5
          { syncToken := "v2", createDate := "d2", prefixes := [], ipv6Prefixes := [] }
          { blob := none, memory := none })).2
      = some { syncToken := "v2", createDate := "d2", prefixes := [], ipv6Prefixes := [] } :=
  set_then_get_memory_tier { blob := none, memory := none }
    { syncToken := "v2", createDate := "d2", prefixes := [], ipv6Prefixes := [] }
    false true 5 (Or.inr (Or.inr (Or.inl rfl)))

/-- Claim C4 counterexample: a snapshot captured at t = 0 and read at
exactly t' = t + D (the 24-hour max-age) is still RETURNED, not absent:
the expiry test is the strict `now - timestamp > CACHE_DURATION`, so the
claim's "at t' >= t + D it returns absent" fails at the boundary. -/
theorem get_at_exact_max_age_not_absent :
    (getCachedData true CACHE_DURATION
        { blob := some { data := { syncToken := "v1", createDate := "d1",
                                   prefixes := [], ipv6Prefixes := [] },
                         timestamp := 0, createDate := "d1", syncToken := "v1" },
          memory := some { data := { syncToken := "v1", createDate := "d1",
                                     prefixes := [], ipv6Prefixes := [] },
                           timestamp := 0, createDate := "d1", syncToken := "v1" } }).2
      = some { syncToken := "v1", createDate := "d1", prefixes := [], ipv6Prefixes := [] }
    ∧ (some { syncToken := "v1", createDate := "d1", prefixes := [], ipv6Prefixes := [] }
        : Option AWSIPRanges) ≠ none := by
  decide

/-- Claim C4 (amended): for a stored snapshot with `capturedAt = t` held
by the reachable tiers (each tier either absent or holding exactly that
snapshot, and at least one accessible tier holding it), `get` at time t'
returns the snapshot's payload unchanged when `t' - t ≤ D` (including
the boundary t' = t + D, the amendment) and returns absent when
`t' - t > D` (strictly). -/
theorem tiered_get_age_rule (cd : CacheData) (s : CacheState) (reachable : Bool) (t' : Int)
    (hb : s.blob = none ∨ s.blob = some cd)
    (hm : s.memory = none ∨ s.memory = some cd)
    (hheld : (reachable = true ∧ s.blob = some cd) ∨ s.memory = some cd) :
    (t' - cd.timestamp ≤ CACHE_DURATION → (getCachedData reachable t' s).2 = some cd.data) ∧
    (t' - cd.timestamp > CACHE_DURATION → (getCachedData reachable t' s).2 = none) := by
  constructor
  · intro hfresh
    have hif : ¬ (t' - cd.timestamp > CACHE_DURATION) := by omega
    rcases hheld with ⟨hr, hbl⟩ | hmem
    · subst hr
      simp [getCachedData, hbl, hif]
    · cases reachable with
      | false => simp [getCachedData, memoryFallback, hmem, hif]
      | true =>
        rcases hb with hbl | hbl
        · simp [getCachedData, hbl, memoryFallback, hmem, hif]
        · simp [getCachedData, hbl, hif]
  · intro hold
    rcases hb with hbl | hbl <;> rcases hm with hmem | hmem <;>
      cases reachable <;>
      simp [getCachedData, memoryFallback, hbl, hmem, hold]

/-- Claim C4 witness: a snapshot captured at t = 0 and held by both
tiers is returned at t' = 1000 and would be absent at any strictly
over-age instant (both implications instantiated at t' = 1000, the first
applying). -/
theorem tiered_get_age_rule_witness :
    ((1000 : Int) - 0 ≤ CACHE_DURATION →
      (getCachedData true 1000
        { blob := some { data := { syncToken := "v1", createDate := "d1",
                                   prefixes := [], ipv6Prefixes := [] },
                         timestamp := 0, createDate := "d1", syncToken := "v1" },
          memory := some { data := { syncToken := "v1", createDate := "d1",
                                     prefixes := [], ipv6Prefixes := [] },
                           timestamp := 0, createDate := "d1", syncToken := "v1" } }).2
        = some { syncToken := "v1", createDate := "d1", prefixes := [], ipv6Prefixes := [] }) ∧
    ((1000 : Int) - 0 > CACHE_DURATION →
      (getCachedData true 1000
        { blob := some { data := { syncToken := "v1", createDate := "d1",
                                   prefixes := [], ipv6Prefixes := [] },
                         timestamp := 0, createDate := "d1", syncToken := "v1" },
          memory := some { data := { syncToken := "v1", createDate := "d1",
                                     prefixes := [], ipv6Prefixes := [] },
                           timestamp := 0, createDate := "d1", syncToken := "v1" } }).2
        = none) :=
  tiered_get_age_rule
    { data := { syncToken := "v1", createDate := "d1", prefixes := [], ipv6Prefixes := [] },
      timestamp := 0, createDate := "d1", syncToken := "v1" }
    { blob := some { data := { syncToken := "v1", createDate := "d1",
                               prefixes := [], ipv6Prefixes := [] },
                     timestamp := 0, createDate := "d1", syncToken := "v1" },
      memory := some { data := { syncToken := "v1", createDate := "d1",
                                 prefixes := [], ipv6Prefixes := [] },
                       timestamp := 0, createDate := "d1", syncToken := "v1" } }
    true 1000 (Or.inr rfl) (Or.inr rfl) (Or.inl ⟨rfl, rfl⟩)

/-! ## Claim theorems: background synchronizer -/

/-- Claim C5 counterexample: with identical cached and remote version
tokens and cache age EXACTLY the force-refresh threshold F (24 h), the
check reports `needsUpdate = false`: the force-refresh test is the
strict `cacheAge > FORCE_REFRESH_INTERVAL`, so the claim's "needsUpdate
= true whenever age >= F" fails at the boundary. -/
theorem check_at_exact_force_age_no_update :
    shouldUpdate true
        (FetchResult.payload
          { prefixes := some [], ipv6Prefixes := some [],
            syncToken := some "A", createDate := some "dA" })
        FORCE_REFRESH_INTERVAL
        { blob := some { data := { syncToken := "A", createDate := "dA",
                                   prefixes := [], ipv6Prefixes := [] },
                         timestamp := 0, createDate := "dA", syncToken := "A" },
          memory := some { data := { syncToken := "A", createDate := "dA",
                                     prefixes := [], ipv6Prefixes := [] },
                           timestamp := 0, createDate := "dA", syncToken := "A" } }
      = { needsUpdate := false, reason := "Data is up to date", remoteData := none } := by
  decide

/-- Claim C5 (amended): with the snapshot in both tiers, the blob tier
reachable, and a successful remote fetch whose `createDate` and
`syncToken` equal the cached ones, the check returns
`needsUpdate = false` ("Data is up to date") whenever the cache age is
AT MOST F (including exactly F, the first amendment), and for age
strictly over F it returns `needsUpdate = true` with reason
"No cached data found" rather than an age-mentioning reason (the second
amendment): since the store's max-age D equals F, an over-age record is
already expired for `getCachedDataWithVersion`, so the no-cache branch
runs and the "Force refresh due to cache age" branch is unreachable. -/
theorem check_age_rule (cd : CacheData) (s : CacheState) (fr : FetchResult)
    (remote : AWSIPRanges) (now : Int)
    (hb : s.blob = some cd) (hm : s.memory = some cd)
    (hf : fetchAWSIPRanges fr = .ok remote)
    (hc : remote.createDate = cd.createDate) (ht : remote.syncToken = cd.syncToken) :
    (now - cd.timestamp ≤ FORCE_REFRESH_INTERVAL →
      shouldUpdate true fr now s =
        { needsUpdate := false, reason := "Data is up to date", remoteData := none }) ∧
    (now - cd.timestamp > FORCE_REFRESH_INTERVAL →
      shouldUpdate true fr now s =
        { needsUpdate := true, reason := "No cached data found",
          remoteData := some remote }) := by
  have hDF : CACHE_DURATION = FORCE_REFRESH_INTERVAL := rfl
  constructor
  · intro hage
    have hnX : ¬ (now - cd.timestamp > CACHE_DURATION) := by rw [hDF]; omega
    have hwv : getCachedDataWithVersion true now s = some cd := by
      simp [getCachedDataWithVersion, hb, hnX]
    have hnF : ¬ (now - cd.timestamp > FORCE_REFRESH_INTERVAL) := by omega
    simp [shouldUpdate, hwv, hf, hc, ht, hnF]
  · intro hage
    have hX : now - cd.timestamp > CACHE_DURATION := by rw [hDF]; omega
    have hwv : getCachedDataWithVersion true now s = none := by
      simp [getCachedDataWithVersion, hb, hX, withVersionMemory, hm]
    simp [shouldUpdate, hwv, hf]

/-- Claim C5 witness: cached token "A", remote token "A", cache captured
at t = 0 and checked at t = 1000 (age under F): the check reports up to
date; the over-age implication is instantiated vacuously at the same
instant. -/
theorem check_age_rule_witness :
    ((1000 : Int) - 0 ≤ FORCE_REFRESH_INTERVAL →
      shouldUpdate true
          (FetchResult.payload
            { prefixes := some [], ipv6Prefixes := some [],
              syncToken := some "A", createDate := some "dA" })
          1000
          { blob := some { data := { syncToken := "A", createDate := "dA",
                                     prefixes := [], ipv6Prefixes := [] },
                           timestamp := 0, createDate := "dA", syncToken := "A" },
            memory := some { data := { syncToken := "A", createDate := "dA",
                                       prefixes := [], ipv6Prefixes := [] },
                             timestamp := 0, createDate := "dA", syncToken := "A" } }
        = { needsUpdate := false, reason := "Data is up to date", remoteData := none }) ∧
    ((1000 : Int) - 0 > FORCE_REFRESH_INTERVAL →
      shouldUpdate true
          (FetchResult.payload
            { prefixes := some [], ipv6Prefixes := some [],
              syncToken := some "A", createDate := some "dA" })
          1000
          { blob := some { data := { syncToken := "A", createDate := "dA",
                                     prefixes := [], ipv6Prefixes := [] },
                           timestamp := 0, createDate := "dA", syncToken := "A" },
            memory := some { data := { syncToken := "A", createDate := "dA",
                                       prefixes := [], ipv6Prefixes := [] },
                             timestamp := 0, createDate := "dA", syncToken := "A" } }
        = { needsUpdate := true, reason := "No cached data found",
            remoteData := some (payloadData
              { prefixes := some [], ipv6Prefixes := some [],
                syncToken := some "A", createDate := some "dA" }) }) :=
  check_age_rule
    { data := { syncToken := "A", createDate := "dA", prefixes := [], ipv6Prefixes := [] },
      timestamp := 0, createDate := "dA", syncToken := "A" }
    { blob := some { data := { syncToken := "A", createDate := "dA",
                               prefixes := [], ipv6Prefixes := [] },
                     timestamp := 0, createDate := "dA", syncToken := "A" },
      memory := some { data := { syncToken := "A", createDate := "dA",
                                 prefixes := [], ipv6Prefixes := [] },
                       timestamp := 0, createDate := "dA", syncToken := "A" } }
    (FetchResult.payload
      { prefixes := some [], ipv6Prefixes := some [],
        syncToken := some "A", createDate := some "dA" })
    (payloadData
      { prefixes := some [], ipv6Prefixes := some [],
        syncToken := some "A", createDate := some "dA" })
    1000 rfl rfl rfl rfl rfl

/-- Claim C6: single-flight. From an idle state the first invocation's
entry step (the synchronous guard check and set, with no await between
them) proceeds and raises the run guard; a second invocation of
`performSync` that begins anywhere inside the first's in-flight window
returns immediately, without error, with the state unchanged and no
fetch-and-write cycle; and the two invocations together perform at most
one fetch-and-write cycle (the first's body performs at most one). -/
theorem single_flight_guard (st0 : SyncState) (env1 env2 : SyncEnv)
    (hidle : st0.isRunning = false) :
    (performSyncEnter st0).2 = true ∧
    (performSyncEnter st0).1.isRunning = true ∧
    performSync env2 (performSyncEnter st0).1 = ((performSyncEnter st0).1, false) ∧
    (performSyncBody env1 (performSyncEnter st0).1.cache).2.toNat
      + (performSync env2 (performSyncEnter st0).1).2.toNat ≤ 1 := by
  have he : performSyncEnter st0 = ({ st0 with isRunning := true }, true) := by
    simp [performSyncEnter, hidle]
  have hnoop : performSync env2 (performSyncEnter st0).1
      = ((performSyncEnter st0).1, false) := by
    rw [he]
    simp [performSync, performSyncEnter]
  refine ⟨by rw [he], by rw [he], hnoop, ?_⟩
  rw [hnoop]
  cases hbody : (performSyncBody env1 (performSyncEnter st0).1.cache).2 <;> simp

/-- Claim C6 witness: from the idle empty state, with both invocations
seeing a failing network fetch. -/
theorem single_flight_guard_witness :
    (performSyncEnter { isRunning := false, cache := { blob := none, memory := none } }).2
      = true ∧
    (performSyncEnter
        { isRunning := false, cache := { blob := none, memory := none } }).1.isRunning
      = true ∧
    performSync { blobReachable := true, fetch := FetchResult.netError "x",
                  now := 0, blobWriteOk := true }
        (performSyncEnter
          { isRunning := false, cache := { blob := none, memory := none } }).1
      = ((performSyncEnter
          { isRunning := false, cache := { blob := none, memory := none } }).1, false) ∧
    (performSyncBody { blobReachable := true, fetch := FetchResult.netError "x",
                       now := 0, blobWriteOk := true }
        (performSyncEnter
          { isRunning := false, cache := { blob := none, memory := none } }).1.cache).2.toNat
      + (performSync { blobReachable := true, fetch := FetchResult.netError "x",
                       now := 0, blobWriteOk := true }
          (performSyncEnter
            { isRunning := false, cache := { blob := none, memory := none } }).1).2.toNat
      ≤ 1 :=
  single_flight_guard { isRunning := false, cache := { blob := none, memory := none } }
    { blobReachable := true, fetch := FetchResult.netError "x", now := 0, blobWriteOk := true }
    { blobReachable := true, fetch := FetchResult.netError "x", now := 0, blobWriteOk := true }
    rfl

/-- Claim C7: any failing remote fetch during a check — a rejected fetch
(network error or timeout), a non-OK HTTP status, or a payload missing
one of the prefix arrays, the sync token or the creation date (all of
which make `fetchAWSIPRanges` throw) — is caught inside `shouldUpdate`:
the check reports `needsUpdate = false` with the error recorded in the
reason (under the no-cache or the comparison prefix respectively), no
remote payload is handed to the writer, and `performSync` completes
without error leaving the cache state exactly as it was, performing no
write. -/
theorem fetch_failure_is_contained (st : SyncState) (env : SyncEnv) (e : String)
    (hfail : fetchAWSIPRanges env.fetch = .error e) :
    (shouldUpdate env.blobReachable env.fetch env.now st.cache).needsUpdate = false ∧
    (shouldUpdate env.blobReachable env.fetch env.now st.cache).remoteData = none ∧
    ((shouldUpdate env.blobReachable env.fetch env.now st.cache).reason
        = "Failed to fetch initial data: " ++ e ∨
     (shouldUpdate env.blobReachable env.fetch env.now st.cache).reason
        = "Failed to check for updates: " ++ e) ∧
    performSync env st = (st, false) := by
  have hsu : shouldUpdate env.blobReachable env.fetch env.now st.cache
      = { needsUpdate := false, reason := "Failed to fetch initial data: " ++ e,
          remoteData := none } ∨
      shouldUpdate env.blobReachable env.fetch env.now st.cache
      = { needsUpdate := false, reason := "Failed to check for updates: " ++ e,
          remoteData := none } := by
    cases hwv : getCachedDataWithVersion env.blobReachable env.now st.cache with
    | none => left; simp [shouldUpdate, hwv, hfail]
    | some cached => right; simp [shouldUpdate, hwv, hfail]
  have hremote : (shouldUpdate env.blobReachable env.fetch env.now st.cache).remoteData
      = none := by
    rcases hsu with h | h <;> rw [h]
  have hps : performSync env st = (st, false) := by
    obtain ⟨run, c⟩ := st
    cases run with
    | true => simp [performSync, performSyncEnter]
    | false =>
      simp only [performSync, performSyncEnter, if_false, Bool.false_eq_true]
      simp only [performSyncBody]
      rw [hremote]
      simp [performSyncExit]
  refine ⟨?_, hremote, ?_, hps⟩
  · rcases hsu with h | h <;> rw [h]
  · rcases hsu with h | h
    · left; rw [h]
    · right; rw [h]

/-- Claim C7 witness: a network failure ("boom") during a check against
the empty idle state is contained: no update reported, the error in the
reason, the state unchanged. -/
theorem fetch_failure_is_contained_witness :
    (shouldUpdate true (FetchResult.netError "boom") 0
        { blob := none, memory := none }).needsUpdate = false ∧
    (shouldUpdate true (FetchResult.netError "boom") 0
        { blob := none, memory := none }).remoteData = none ∧
    ((shouldUpdate true (FetchResult.netError "boom") 0
        { blob := none, memory := none }).reason
        = "Failed to fetch initial data: " ++ "boom" ∨
     (shouldUpdate true (FetchResult.netError "boom") 0
        { blob := none, memory := none }).reason
        = "Failed to check for updates: " ++ "boom") ∧
    performSync { blobReachable := true, fetch := FetchResult.netError "boom",
                  now := 0, blobWriteOk := true }
        { isRunning := false, cache := { blob := none, memory := none } }
      = ({ isRunning := false, cache := { blob := none, memory := none } }, false) :=
  fetch_failure_is_contained
    { isRunning := false, cache := { blob := none, memory := none } }
    { blobReachable := true, fetch := FetchResult.netError "boom",
      now := 0, blobWriteOk := true }
    "boom" rfl

/-- Claim C10: for every environment — including a failing upstream
fetch and a failing durable write — `triggerSync` reports
`success = true` with the fixed completion message: `performSync`
catches every internal error (`shouldUpdate` converts fetch failures
into a result, `setCachedData` swallows blob-write failure), so the
`success = false` catch branch of `triggerSync` is unreachable. -/
theorem trigger_always_reports_success (env : SyncEnv) (st : SyncState) :
    (triggerSync env st).1
      = { success := true, message := "Sync completed successfully" } := rfl
